import Mathlib

/-!
# Verification of the Wetterpendeln location store and radar timeline engine

Shallow embedding of the core logic of the `wetterpendeln` web application:

* the location store (`LocationProvider`): `updateFromGPS`, `updateManual`,
  `clearError`, and its localStorage persistence / rehydration effects;
* the radar view (`RadarView`): manifest loading, the playback loop, the
  scrub/jump/toggle controls, and the slippy-map tile-coordinate math.

State updates of the React components are modelled as pure functions on
explicit state records; the asynchronous geolocation / fetch outcomes are
passed in as explicit values.  JavaScript numbers used as integers are
modelled as `ℤ`; coordinates handled opaquely by the location store (no
arithmetic is done on them) are modelled as `ℚ`; the tile math, which is
genuine real arithmetic, is modelled over `ℝ` with `Int.floor` for
`Math.floor`.
-/

namespace Wetterpendeln

/-! ## Location store (lib/location-store, `LocationProvider`) -/

/-- `type LocationSource = "gps" | "manual"`. -/
inductive LocationSource where
  | gps
  | manual
deriving DecidableEq

/-- `interface LocationState` of the location store: `lat`/`lon` are
`number | null`, `cityLabel : string`, `source : LocationSource`,
`lastUpdated : number` (epoch milliseconds). -/
structure LocationState where
  lat : Option ℚ
  lon : Option ℚ
  cityLabel : String
  source : LocationSource
  lastUpdated : ℤ
deriving DecidableEq

/-- `DEFAULT_LOCATION`: the all-empty initial record. -/
def DEFAULT_LOCATION : LocationState :=
  { lat := none, lon := none, cityLabel := "", source := .manual, lastUpdated := 0 }

/-- The provider's own state: the `location`, `isLoading` and `error`
`useState` cells. -/
structure StoreState where
  location : LocationState
  isLoading : Bool
  error : Option String
deriving DecidableEq

/-- The structured error codes of the platform geolocation failure callback:
`PERMISSION_DENIED`, `POSITION_UNAVAILABLE`, `TIMEOUT`, and anything else
(the `default:` branch of the `switch`). -/
inductive GeoErrorCode where
  | permissionDenied
  | positionUnavailable
  | timeout
  | other
deriving DecidableEq

/-- The user-facing message chosen by the `switch (err.code)` in
`updateFromGPS`'s failure callback. -/
def geoErrorMessage : GeoErrorCode → String
  | .permissionDenied =>
      "Standortzugriff wurde verweigert. Bitte Standortfreigabe im Browser aktivieren oder PLZ/Ort eingeben."
  | .positionUnavailable => "Standortinformationen sind nicht verfügbar."
  | .timeout => "Zeitüberschreitung bei der Standortabfrage."
  | .other => "Ein unbekannter Fehler ist aufgetreten."

/-- Outcome of the reverse-geocoding sub-call inside `updateFromGPS`'s
success callback: `ok name` means the fetch and JSON parse succeeded and
`data.results?.[0]?.name` was `name` (`none` when absent); `failed` means
the fetch or parse threw (the `catch` branch). -/
inductive GeocodeResult where
  | ok (name : Option String)
  | failed
deriving DecidableEq

/-- The city label computed from the geocode outcome:
`data.results?.[0]?.name || "Aktueller Standort"` on the try branch (note
`||` also replaces the empty string), and the literal fallback
`"Aktueller Standort"` on the catch branch. -/
def resolvedCityName : GeocodeResult → String
  | .ok (some n) => if n = "" then "Aktueller Standort" else n
  | .ok none => "Aktueller Standort"
  | .failed => "Aktueller Standort"

/-- Outcome of one `updateFromGPS` invocation, as reported by the platform:
the browser lacks geolocation entirely, the position callback fired with
coordinates (plus the geocode sub-outcome), or the error callback fired. -/
inductive GeoOutcome where
  | unsupported
  | success (latitude longitude : ℚ) (geocode : GeocodeResult)
  | failure (code : GeoErrorCode)
deriving DecidableEq

/-- Net effect of one complete `updateFromGPS` run on the store state.
The in-source sequence is: early-return with an error when geolocation is
unsupported; otherwise `setIsLoading(true); setError(null)`, then on
success `setLocation({lat, lon, cityLabel, source: "gps", lastUpdated:
now}); setIsLoading(false)`, and on failure `setIsLoading(false);
setError(message)`.  The promise always resolves (both callbacks call
`resolve()`), which the embedding reflects by being a total function into
`StoreState` rather than an `Except`. -/
def updateFromGPS (outcome : GeoOutcome) (now : ℤ) (s : StoreState) : StoreState :=
  match outcome with
  | .unsupported =>
      { s with error := some "Geolocation wird von Ihrem Browser nicht unterstützt." }
  | .success la lo g =>
      { location :=
          { lat := some la, lon := some lo, cityLabel := resolvedCityName g,
            source := .gps, lastUpdated := now },
        isLoading := false, error := none }
  | .failure c =>
      { s with isLoading := false, error := some (geoErrorMessage c) }

/-- `updateManual(lat, lon, label)`: wholesale replacement of the location
record with `source: "manual"`, then `setError(null)`. -/
def updateManual (lat lon : ℚ) (label : String) (now : ℤ) (s : StoreState) : StoreState :=
  { location :=
      { lat := some lat, lon := some lon, cityLabel := label,
        source := .manual, lastUpdated := now },
    isLoading := s.isLoading, error := none }

/-- `clearError()`: `setError(null)` only. -/
def clearError (s : StoreState) : StoreState := { s with error := none }

/-- The reduced `{lat, lon, name}` record written under the legacy storage
key `"wetterpendeln-last-location"`. -/
structure LegacyLocationRecord where
  lat : ℚ
  lon : ℚ
  name : String
deriving DecidableEq

/-- The two localStorage slots used by the provider: the primary key
`"wetterpendeln-location-state"` (full `LocationState` JSON) and the legacy
key (reduced record).  `JSON.stringify`/`JSON.parse` round-trips these
records losslessly, so serialization is modelled as the identity embedding
of the typed record into the slot. -/
structure LocalStorage where
  primary : Option LocationState
  legacy : Option LegacyLocationRecord
deriving DecidableEq

/-- The persist effect (`useEffect` on `[location]`): when both coordinates
are non-null, write the full state under the primary key and the reduced
record under the legacy key; otherwise write nothing. -/
def persistLocation (loc : LocationState) (st : LocalStorage) : LocalStorage :=
  match loc.lat, loc.lon with
  | some la, some lo =>
      { primary := some loc,
        legacy := some { lat := la, lon := lo, name := loc.cityLabel } }
  | _, _ => st

/-- The rehydrate effect (`useEffect` on mount): if a record exists under
the primary key it becomes the location state, else the default is kept. -/
def rehydrate (st : LocalStorage) : LocationState :=
  match st.primary with
  | some saved => saved
  | none => DEFAULT_LOCATION

/-- Storage contents producible by the application itself: the empty
storage, or the result of the persist effect on such contents. -/
inductive StorageReachable : LocalStorage → Prop
  | empty : StorageReachable { primary := none, legacy := none }
  | persist (loc : LocationState) (st : LocalStorage) :
      StorageReachable st → StorageReachable (persistLocation loc st)

/-- The `lat`/`lon` both-present-or-both-absent invariant. -/
def coordsConsistent (l : LocationState) : Prop := l.lat.isSome = l.lon.isSome

/-! ## Radar view (`RadarView` in components/views/radar-view.tsx) -/

/-- One radar frame of the RainViewer manifest: `{time: number; path: string}`. -/
structure RadarFrame where
  time : ℤ
  path : String
deriving DecidableEq

/-- The `radar` part of the RainViewer manifest: `past` and `nowcast`
frame arrays. -/
structure RainViewerData where
  past : List RadarFrame
  nowcast : List RadarFrame
deriving DecidableEq

/-- The `RadarView` component's state cells relevant to playback:
`radarData`, `currentFrame`, `isPlaying`, `loading`, `error`. -/
structure RadarState where
  radarData : Option RainViewerData
  currentFrame : ℤ
  isPlaying : Bool
  loading : Bool
  radarError : Option String
deriving DecidableEq

/-- The `useState` initial values: no data, frame `0`, not playing,
`loading=true`, no error. -/
def initialRadarState : RadarState :=
  { radarData := none, currentFrame := 0, isPlaying := false,
    loading := true, radarError := none }

/-- `allFrames = radarData ? [...past, ...nowcast] : []`. -/
def allFrames : Option RainViewerData → List RadarFrame
  | none => []
  | some d => d.past ++ d.nowcast

/-- `allFrames.length` of the current state, as the integer the JS code
computes with. -/
def totalFrames (s : RadarState) : ℤ := (allFrames s.radarData).length

/-- `loadRadarData` success path: `setRadarData(data)` then
`setCurrentFrame(Math.max(0, pastFrames - 1))`; the surrounding `init`
effect then does `setLoading(false)`. -/
def loadRadarSuccess (d : RainViewerData) (s : RadarState) : RadarState :=
  { s with radarData := some d,
           currentFrame := max 0 ((d.past.length : ℤ) - 1),
           loading := false }

/-- `loadRadarData` failure path: `setError(...)`; the `init` effect still
does `setLoading(false)`. -/
def loadRadarFailure (s : RadarState) : RadarState :=
  { s with radarError := some "Radardaten konnten nicht geladen werden",
           loading := false }

/-- `jumpToTime(minutesFromNow)`: early return when `radarData` is null,
else clamp `pastCount - 1 + Math.floor(minutesFromNow / 10)` into
`[0, allFrames.length - 1]` via `Math.max(0, Math.min(...))`, set the frame
and stop playback.  `Math.floor` of the real quotient is floor division,
`Int.fdiv`. -/
def jumpToTime (minutesFromNow : ℤ) (s : RadarState) : RadarState :=
  match s.radarData with
  | none => s
  | some d =>
      let pastCount : ℤ := d.past.length
      let total : ℤ := (d.past ++ d.nowcast).length
      let targetFrame := pastCount - 1 + Int.fdiv minutesFromNow 10
      let clampedFrame := max 0 (min (total - 1) targetFrame)
      { s with currentFrame := clampedFrame, isPlaying := false }

/-- The play/pause button click.  The playback controls block is rendered
only under `allFrames.length > 0`, so with zero frames there is no button
and a click cannot occur: the guard models the conditional rendering. -/
def togglePlayClick (s : RadarState) : RadarState :=
  if 0 < totalFrames s then { s with isPlaying := !s.isPlaying } else s

/-- The skip-to-start button (`setCurrentFrame(0)`), rendered only under
`allFrames.length > 0`. -/
def skipToStartClick (s : RadarState) : RadarState :=
  if 0 < totalFrames s then { s with currentFrame := 0 } else s

/-- The skip-to-end button (`setCurrentFrame(allFrames.length - 1)`),
rendered only under `allFrames.length > 0`. -/
def skipToEndClick (s : RadarState) : RadarState :=
  if 0 < totalFrames s then { s with currentFrame := totalFrames s - 1 } else s

/-- The timeline slider (`onValueChange={([value]) => setCurrentFrame(value)}`),
rendered only under `allFrames.length > 0`; the slider component delivers an
integer value between `0` and its `max = allFrames.length - 1`. -/
def scrubTo (v : ℤ) (s : RadarState) : RadarState :=
  if 0 < totalFrames s ∧ 0 ≤ v ∧ v ≤ totalFrames s - 1 then
    { s with currentFrame := v }
  else s

/-- JavaScript's `%` remainder: truncation remainder (`Int.tmod`), and
`NaN` — modelled as `none` — when the divisor is `0`. -/
def jsRemainder (a b : ℤ) : Option ℤ :=
  if b = 0 then none else some (Int.tmod a b)

/-- One firing opportunity of the 500 ms playback interval.  The effect
installs the interval only when `isPlaying` and `radarData` are truthy
(`if (!isPlaying || !radarData) return`), in which case a tick runs
`setCurrentFrame((prev) => (prev + 1) % allFrames.length)`; `none` is the
`NaN` hazard of `% 0`.  When the interval is not installed the state is
unchanged. -/
def tickFire (s : RadarState) : Option RadarState :=
  if s.isPlaying = true ∧ s.radarData.isSome = true then
    (jsRemainder (s.currentFrame + 1) (totalFrames s)).map
      (fun v => { s with currentFrame := v })
  else
    some s

/-- Radar-view states producible by the component: the initial state,
one manifest load (success or failure) while still loading — the fetch
happens exactly once, in the mount effect, before the controls render —
and then any sequence of user interactions and interval ticks. -/
inductive Reachable : RadarState → Prop
  | init : Reachable initialRadarState
  | loadSuccess (d : RainViewerData) (s : RadarState) :
      Reachable s → s.loading = true → Reachable (loadRadarSuccess d s)
  | loadFailure (s : RadarState) :
      Reachable s → s.loading = true → Reachable (loadRadarFailure s)
  | togglePlay (s : RadarState) : Reachable s → Reachable (togglePlayClick s)
  | skipToStart (s : RadarState) : Reachable s → Reachable (skipToStartClick s)
  | skipToEnd (s : RadarState) : Reachable s → Reachable (skipToEndClick s)
  | scrub (v : ℤ) (s : RadarState) : Reachable s → Reachable (scrubTo v s)
  | jump (m : ℤ) (s : RadarState) : Reachable s → Reachable (jumpToTime m s)
  | tick (s t : RadarState) : Reachable s → tickFire s = some t → Reachable t

/-- The inductive invariant of the radar view's playback state. -/
def RadarInv (s : RadarState) : Prop :=
  0 ≤ s.currentFrame ∧
  (s.isPlaying = true → 0 < totalFrames s) ∧
  (0 < totalFrames s → s.currentFrame < totalFrames s) ∧
  (s.loading = true → s.radarData = none ∧ s.isPlaying = false)

/-! ## Tile-coordinate math -/

/-- `getTileCoords(lat, lon, zoom)` of the current radar view:
`x = Math.floor(((lon + 180) / 360) * Math.pow(2, zoom))`,
`y = Math.floor(((1 - Math.log(Math.tan((lat * Math.PI) / 180) + 1 /
Math.cos((lat * Math.PI) / 180)) / Math.PI) / 2) * Math.pow(2, zoom))`,
read over the reals. -/
noncomputable def getTileCoords (lat lon : ℝ) (zoom : ℕ) : ℤ × ℤ :=
  (⌊(lon + 180) / 360 * (2 : ℝ) ^ zoom⌋,
   ⌊(1 - Real.log (Real.tan (lat * Real.pi / 180) +
      1 / Real.cos (lat * Real.pi / 180)) / Real.pi) / 2 * (2 : ℝ) ^ zoom⌋)

/-- Modelled from the spec: the reference slippy-map formula at zoom 7,
`x = floor((lon + 180) / 360 * 2^7)`. -/
noncomputable def referenceTileX (lon : ℝ) : ℤ :=
  ⌊(lon + 180) / 360 * (2 : ℝ) ^ (7 : ℕ)⌋

/-- Modelled from the spec: the reference slippy-map formula at zoom 7,
`y = floor((1 - ln(tan(lat·π/180) + 1/cos(lat·π/180)) / π) / 2 * 2^7)`. -/
noncomputable def referenceTileY (lat : ℝ) : ℤ :=
  ⌊(1 - Real.log (Real.tan (lat * Real.pi / 180) +
     1 / Real.cos (lat * Real.pi / 180)) / Real.pi) / 2 * (2 : ℝ) ^ (7 : ℕ)⌋

/-- The legacy radar view's inline x expression:
`Math.floor(((location.lon + 180) / 360) * 128)`. -/
noncomputable def legacyTileX (lon : ℝ) : ℤ :=
  ⌊(lon + 180) / 360 * 128⌋

/-- The legacy radar view's inline y expression:
`Math.floor(((1 - Math.log(Math.tan((location.lat * Math.PI) / 180) + 1 /
Math.cos((location.lat * Math.PI) / 180)) / Math.PI) / 2) * 128)`. -/
noncomputable def legacyTileY (lat : ℝ) : ℤ :=
  ⌊(1 - Real.log (Real.tan (lat * Real.pi / 180) +
     1 / Real.cos (lat * Real.pi / 180)) / Real.pi) / 2 * 128⌋

/-! ## Concrete sample data for witnesses -/

/-- A sample radar frame. -/
def sampleFrame : RadarFrame := { time := 1700000000, path := "/v2/radar/1700000000" }

/-- A one-frame manifest (one past frame, no nowcast). -/
def sampleManifest : RainViewerData := { past := [sampleFrame], nowcast := [] }

/-- A manifest with `past=[]`, `nowcast=[]`. -/
def emptyManifest : RainViewerData := { past := [], nowcast := [] }

/-- The view state right after successfully loading `sampleManifest`. -/
def sampleLoadedState : RadarState := loadRadarSuccess sampleManifest initialRadarState

/-- `sampleLoadedState` after pressing play. -/
def samplePlayingState : RadarState := togglePlayClick sampleLoadedState

/-- The view state right after successfully loading the empty manifest. -/
def emptyLoadedState : RadarState := loadRadarSuccess emptyManifest initialRadarState

/-! ## Helper lemmas -/

/-- A state whose `radarData` is `none` has zero frames. -/
theorem totalFrames_eq_zero_of_none {s : RadarState} (h : s.radarData = none) :
    totalFrames s = 0 := by
  simp [totalFrames, allFrames, h]

/-- `totalFrames` is nonnegative. -/
theorem totalFrames_nonneg (s : RadarState) : 0 ≤ totalFrames s := by
  simp [totalFrames]

/-- The playback invariant holds in every reachable radar-view state. -/
theorem radarInv_of_reachable (s : RadarState) (h : Reachable s) : RadarInv s := by
  induction h with
  | init =>
      refine ⟨le_refl 0, ?_, ?_, ?_⟩ <;>
        simp [initialRadarState, totalFrames, allFrames]
  | loadSuccess d s hs hload ih =>
      obtain ⟨h0, hp, hb, hl⟩ := ih
      obtain ⟨hrd, hpl⟩ := hl hload
      refine ⟨?_, ?_, ?_, ?_⟩
      · simp [loadRadarSuccess]
      · intro hplay
        simp only [loadRadarSuccess] at hplay
        rw [hpl] at hplay
        exact absurd hplay (by simp)
      · intro hpos
        simp only [loadRadarSuccess, totalFrames, allFrames,
          List.length_append] at hpos ⊢
        push_cast at hpos ⊢
        omega
      · intro hload2
        simp [loadRadarSuccess] at hload2
  | loadFailure s hs hload ih =>
      obtain ⟨h0, hp, hb, hl⟩ := ih
      refine ⟨h0, ?_, ?_, ?_⟩
      · intro hplay
        simpa [loadRadarFailure, totalFrames, allFrames] using
          hp (by simpa [loadRadarFailure] using hplay)
      · intro hpos
        simpa [loadRadarFailure] using
          hb (by simpa [loadRadarFailure, totalFrames, allFrames] using hpos)
      · intro hload2
        simp [loadRadarFailure] at hload2
  | togglePlay s hs ih =>
      obtain ⟨h0, hp, hb, hl⟩ := ih
      by_cases hg : 0 < totalFrames s
      · refine ⟨?_, ?_, ?_, ?_⟩ <;>
          simp only [togglePlayClick, if_pos hg]
        · exact h0
        · intro _
          simpa [totalFrames, allFrames] using hg
        · intro _
          simpa [totalFrames, allFrames] using hb hg
        · intro hload
          have hrd := (hl hload).1
          rw [totalFrames_eq_zero_of_none hrd] at hg
          exact absurd hg (by omega)
      · simpa [togglePlayClick, if_neg hg] using ⟨h0, hp, hb, hl⟩
  | skipToStart s hs ih =>
      obtain ⟨h0, hp, hb, hl⟩ := ih
      by_cases hg : 0 < totalFrames s
      · refine ⟨?_, ?_, ?_, ?_⟩ <;>
          simp only [skipToStartClick, if_pos hg]
        · exact le_refl 0
        · intro hplay
          simpa [totalFrames, allFrames] using hg
        · intro _
          simpa [totalFrames, allFrames] using hg
        · intro hload
          have hrd := (hl hload).1
          rw [totalFrames_eq_zero_of_none hrd] at hg
          exact absurd hg (by omega)
      · simpa [skipToStartClick, if_neg hg] using ⟨h0, hp, hb, hl⟩
  | skipToEnd s hs ih =>
      obtain ⟨h0, hp, hb, hl⟩ := ih
      by_cases hg : 0 < totalFrames s
      · refine ⟨?_, ?_, ?_, ?_⟩ <;>
          simp only [skipToEndClick, if_pos hg]
        · omega
        · intro _
          simpa [totalFrames, allFrames] using hg
        · intro _
          have := hg
          simp only [totalFrames, allFrames] at this ⊢
          omega
        · intro hload
          have hrd := (hl hload).1
          rw [totalFrames_eq_zero_of_none hrd] at hg
          exact absurd hg (by omega)
      · simpa [skipToEndClick, if_neg hg] using ⟨h0, hp, hb, hl⟩
  | scrub v s hs ih =>
      obtain ⟨h0, hp, hb, hl⟩ := ih
      by_cases hg : 0 < totalFrames s ∧ 0 ≤ v ∧ v ≤ totalFrames s - 1
      · refine ⟨?_, ?_, ?_, ?_⟩ <;>
          simp only [scrubTo, if_pos hg]
        · exact hg.2.1
        · intro _
          simpa [totalFrames, allFrames] using hg.1
        · intro _
          have h1 := hg.1
          have h2 := hg.2.2
          simp only [totalFrames, allFrames] at h1 h2 ⊢
          omega
        · intro hload
          have hrd := (hl hload).1
          have := hg.1
          rw [totalFrames_eq_zero_of_none hrd] at this
          exact absurd this (by omega)
      · simpa [scrubTo, if_neg hg] using ⟨h0, hp, hb, hl⟩
  | jump m s hs ih =>
      obtain ⟨h0, hp, hb, hl⟩ := ih
      cases hrd : s.radarData with
      | none => simpa [jumpToTime, hrd] using ⟨h0, hp, hb, hl⟩
      | some d =>
          refine ⟨?_, ?_, ?_, ?_⟩ <;>
            simp only [jumpToTime, hrd]
          · simp
          · intro hplay
            simp at hplay
          · intro hpos
            simp only [totalFrames, allFrames, hrd] at hpos ⊢
            omega
          · intro hload
            have := (hl (by simpa [jumpToTime, hrd] using hload)).1
            rw [hrd] at this
            exact absurd this (by simp)
  | tick s t hs htick ih =>
      obtain ⟨h0, hp, hb, hl⟩ := ih
      by_cases hg : s.isPlaying = true ∧ s.radarData.isSome = true
      · have hpos := hp hg.1
        have hne : totalFrames s ≠ 0 := by omega
        simp only [tickFire, if_pos hg, jsRemainder, if_neg hne,
          Option.map_some', Option.some.injEq] at htick
        subst htick
        have hmod : Int.tmod (s.currentFrame + 1) (totalFrames s) =
            (s.currentFrame + 1) % totalFrames s :=
          Int.tmod_eq_emod (by omega) (by omega)
        refine ⟨?_, ?_, ?_, ?_⟩
        · simp only [hmod]
          exact Int.emod_nonneg _ hne
        · intro _
          simpa [totalFrames, allFrames] using hpos
        · intro _
          have hlt : (s.currentFrame + 1) % totalFrames s < totalFrames s :=
            Int.emod_lt_of_pos _ hpos
          simp only [hmod]
          simpa [totalFrames, allFrames] using hlt
        · intro hload
          exact absurd hg.1 (by simp [(hl hload).2])
      · simp only [tickFire, if_neg hg, Option.some.injEq] at htick
        subst htick
        exact ⟨h0, hp, hb, hl⟩

/-! ## Claim theorems -/

/-- C1: for every `lat` in `(-85, 85)` and every `lon`,
`getTileCoords(lat, lon, 7)` returns exactly the integer pair of the
reference slippy-map formula at zoom 7, with truncation by floor. -/
theorem getTileCoords_matches_reference (lat lon : ℝ)
    (h1 : -85 < lat) (h2 : lat < 85) :
    getTileCoords lat lon 7 = (referenceTileX lon, referenceTileY lat) := rfl

/-- Witness for C1 at `lat = 51`, `lon = 10`. -/
theorem getTileCoords_matches_reference_witness :
    (-85 : ℝ) < 51 ∧ (51 : ℝ) < 85 ∧
      getTileCoords 51 10 7 = (referenceTileX 10, referenceTileY 51) :=
  ⟨by norm_num, by norm_num,
    getTileCoords_matches_reference 51 10 (by norm_num) (by norm_num)⟩

/-- C2: with a loaded manifest of `P` past frames and `T ≥ 1` total frames,
`jumpToTime m` sets `currentFrame` to the clamp of `P - 1 + ⌊m / 10⌋` into
`[0, T-1]`, sets `isPlaying` to `false`, and changes no other field. -/
theorem jumpToTime_clamps (m : ℤ) (s : RadarState) (d : RainViewerData)
    (hd : s.radarData = some d)
    (hT : 1 ≤ ((d.past ++ d.nowcast).length : ℤ)) :
    jumpToTime m s =
      { s with
        currentFrame :=
          max 0 (min (((d.past ++ d.nowcast).length : ℤ) - 1)
            ((d.past.length : ℤ) - 1 + Int.fdiv m 10)),
        isPlaying := false } := by
  simp [jumpToTime, hd]

/-- Witness for C2: jumping to `+30` minutes on the one-frame manifest. -/
theorem jumpToTime_clamps_witness :
    jumpToTime 30 sampleLoadedState =
      { sampleLoadedState with
        currentFrame :=
          max 0 (min (((sampleManifest.past ++ sampleManifest.nowcast).length : ℤ) - 1)
            ((sampleManifest.past.length : ℤ) - 1 + Int.fdiv 30 10)),
        isPlaying := false } :=
  jumpToTime_clamps 30 sampleLoadedState sampleManifest rfl (by decide)

/-- C3: for every geolocation failure code, `updateFromGPS` leaves the
`LocationState` record unchanged, sets the error field to the message for
that code, and (being a total function) resolves rather than rejecting. -/
theorem updateFromGPS_failure_preserves_location
    (c : GeoErrorCode) (now : ℤ) (s : StoreState) :
    (updateFromGPS (.failure c) now s).location = s.location ∧
      (updateFromGPS (.failure c) now s).error = some (geoErrorMessage c) :=
  ⟨rfl, rfl⟩

/-- C4: `updateManual lat lon X` followed by persisting the resulting
location and rehydrating a fresh store from the primary storage key yields
a `LocationState` with the same `lat`, the same `lon`, `cityLabel = X` and
`source = manual`. -/
theorem updateManual_persist_roundtrip (lat lon : ℚ) (label : String)
    (now : ℤ) (s : StoreState) (st : LocalStorage) :
    rehydrate (persistLocation (updateManual lat lon label now s).location st) =
      { lat := some lat, lon := some lon, cityLabel := label,
        source := .manual, lastUpdated := now } := rfl

/-- C5: in every reachable radar-view state, the playback interval never
hits the modulo-by-zero hazard: the tick yields a well-defined successor
state, advances the frame to `(currentFrame + 1) % totalFrames` when
playing, and is a no-op when there are zero frames. -/
theorem tick_guarded_and_advances (s : RadarState) (h : Reachable s) :
    ∃ t, tickFire s = some t ∧
      (s.isPlaying = true →
        t.currentFrame = (s.currentFrame + 1) % totalFrames s) ∧
      (totalFrames s = 0 → t = s) := by
  obtain ⟨h0, hp, hb, hl⟩ := radarInv_of_reachable s h
  by_cases hplay : s.isPlaying = true
  · have hpos := hp hplay
    have hne : totalFrames s ≠ 0 := by omega
    have hsome : s.radarData.isSome = true := by
      cases hrd : s.radarData with
      | none => rw [totalFrames_eq_zero_of_none hrd] at hpos; omega
      | some d => rfl
    refine ⟨{ s with currentFrame := Int.tmod (s.currentFrame + 1) (totalFrames s) },
      ?_, ?_, ?_⟩
    · simp [tickFire, hplay, hsome, jsRemainder, hne]
    · intro _
      simpa using Int.tmod_eq_emod (by omega) (by omega)
    · intro hzero
      exact absurd hzero hne
  · refine ⟨s, ?_, ?_, fun _ => rfl⟩
    · simp [tickFire, hplay]
    · intro hc
      exact absurd hc hplay

/-- Witness for C5: one tick on the playing one-frame state. -/
theorem tick_guarded_and_advances_witness :
    ∃ t, tickFire samplePlayingState = some t ∧
      (samplePlayingState.isPlaying = true →
        t.currentFrame =
          (samplePlayingState.currentFrame + 1) % totalFrames samplePlayingState) ∧
      (totalFrames samplePlayingState = 0 → t = samplePlayingState) :=
  tick_guarded_and_advances samplePlayingState
    (Reachable.togglePlay _
      (Reachable.loadSuccess sampleManifest _ Reachable.init rfl))

/-- C6: whenever at least one frame exists, every reachable radar-view
state — hence the state after every load, tick, scrub, toggle and jump —
satisfies `0 ≤ currentFrame < totalFrames`. -/
theorem currentFrame_in_bounds (s : RadarState) (h : Reachable s)
    (hpos : 0 < totalFrames s) :
    0 ≤ s.currentFrame ∧ s.currentFrame < totalFrames s := by
  obtain ⟨h0, hp, hb, hl⟩ := radarInv_of_reachable s h
  exact ⟨h0, hb hpos⟩

/-- Witness for C6: the state right after loading the one-frame manifest. -/
theorem currentFrame_in_bounds_witness :
    0 ≤ sampleLoadedState.currentFrame ∧
      sampleLoadedState.currentFrame < totalFrames sampleLoadedState :=
  currentFrame_in_bounds sampleLoadedState
    (Reachable.loadSuccess sampleManifest _ Reachable.init rfl) (by decide)

/-- C7: the default state, rehydration from application-written storage,
every GPS-resolution outcome, and `updateManual` all keep `lat`/`lon`
both present or both absent. -/
theorem location_coords_consistent :
    coordsConsistent DEFAULT_LOCATION ∧
    (∀ st, StorageReachable st → coordsConsistent (rehydrate st)) ∧
    (∀ outcome now s, coordsConsistent s.location →
      coordsConsistent (updateFromGPS outcome now s).location) ∧
    (∀ lat lon label now s,
      coordsConsistent (updateManual lat lon label now s).location) := by
  refine ⟨rfl, ?_, ?_, ?_⟩
  · intro st h
    induction h with
    | empty => rfl
    | persist loc st hst ih =>
        cases hla : loc.lat with
        | none =>
            simpa [persistLocation, hla] using ih
        | some la =>
            cases hlo : loc.lon with
            | none => simpa [persistLocation, hla, hlo] using ih
            | some lo =>
                simp [persistLocation, hla, hlo, rehydrate, coordsConsistent]
  · intro outcome now s hs
    cases outcome with
    | unsupported => simpa [updateFromGPS] using hs
    | success la lo g => simp [updateFromGPS, coordsConsistent]
    | failure c => simpa [updateFromGPS] using hs
  · intro lat lon label now s
    simp [updateManual, coordsConsistent]

/-- Witness for C7: a permission-denied GPS outcome on the default store. -/
theorem location_coords_consistent_witness :
    coordsConsistent (updateFromGPS (GeoOutcome.failure GeoErrorCode.permissionDenied) 5
      { location := DEFAULT_LOCATION, isLoading := false, error := none }).location :=
  location_coords_consistent.2.2.1
    (GeoOutcome.failure GeoErrorCode.permissionDenied) 5
    { location := DEFAULT_LOCATION, isLoading := false, error := none } rfl

/-- C8: when geolocation succeeds but reverse geocoding fails, the entire
`LocationState` is still replaced with the GPS coordinates and the generic
fallback label "Aktueller Standort", the prior error is cleared, and the
update completes. -/
theorem updateFromGPS_geocode_fallback (la lo : ℚ) (now : ℤ) (s : StoreState) :
    updateFromGPS (.success la lo .failed) now s =
      { location :=
          { lat := some la, lon := some lo, cityLabel := "Aktueller Standort",
            source := .gps, lastUpdated := now },
        isLoading := false, error := none } := rfl

/-- C9: when the loaded manifest has zero frames (`past` and `nowcast` both
empty), the play/pause control is a no-op: the state, and in particular the
`isPlaying` flag, is unchanged. -/
theorem togglePlay_noop_on_empty_manifest (s : RadarState) (d : RainViewerData)
    (hd : s.radarData = some d) (hp : d.past = []) (hn : d.nowcast = []) :
    togglePlayClick s = s := by
  have hz : totalFrames s = 0 := by simp [totalFrames, allFrames, hd, hp, hn]
  simp [togglePlayClick, hz]

/-- Witness for C9: the state loaded from the empty manifest. -/
theorem togglePlay_noop_on_empty_manifest_witness :
    togglePlayClick emptyLoadedState = emptyLoadedState :=
  togglePlay_noop_on_empty_manifest emptyLoadedState emptyManifest rfl rfl rfl

/-- C10: the legacy radar view's inline tile expressions (multiplying by
the hard-coded `128`) compute, for every `(lat, lon)`, exactly the pair
computed by the current view's `getTileCoords(lat, lon, 7)`. -/
theorem legacy_tiles_equal_getTileCoords (lat lon : ℝ) :
    (legacyTileX lon, legacyTileY lat) = getTileCoords lat lon 7 := by
  unfold legacyTileX legacyTileY getTileCoords
  norm_num

end Wetterpendeln
